import Mathlib

/-!
Verification of the Input/Converter field-binding framework of
`src/owrx/form/__init__.py` (OpenWebRX+).

The Python classes are shallowly embedded: each converter or input variant
becomes a Lean function on explicit arguments (the instance fields become
parameters), Python `None` becomes `Option.none`, raisable code paths return
`Except PyErr`, and Python dicts with string keys become association lists
with first-match lookup (exact for dicts, whose keys are unique).
-/

set_option autoImplicit false

/-- The kinds of Python exceptions raised by the modelled code paths. -/
inductive PyErr where
  | keyError
  | indexError
  | typeError
  | valueError
  deriving DecidableEq, Repr

/-- Submitted form payload (spec §3 FormData): a mapping from string keys to
ordered sequences of submitted string values, produced by the external
request-decoding layer.  Modelled as an association list with first-match
lookup, which coincides with Python dict lookup since dict keys are unique. -/
abbrev FormData := List (String × List String)

namespace FormData

/-- Python `data[k]` as an `Option`: the value list of the first entry with
key `k`, or `none` when the key is absent. -/
def lookup (d : FormData) (k : String) : Option (List String) :=
  (List.find? (fun e => e.1 == k) d).map (fun e => e.2)

/-- Python `k in data`. -/
def hasKey (d : FormData) (k : String) : Bool :=
  (d.lookup k).isSome

/-- Python `data[k][0]`: raises `KeyError` when `k` is absent and
`IndexError` when the value list is empty. -/
def firstVal (d : FormData) (k : String) : Except PyErr String :=
  match d.lookup k with
  | none => .error .keyError
  | some [] => .error .indexError
  | some (v :: _) => .ok v

/-- Whether the first submitted value under `k` exists and is `"on"`;
`false` when `k` is absent.  Used to phrase parse results. -/
def submittedOn (d : FormData) (k : String) : Bool :=
  match d.firstVal k with
  | .ok v => v == "on"
  | .error _ => false

end FormData

namespace NullConverter

/-- `NullConverter.convert_to_form` (line 19-20): identity. -/
def convert_to_form {α : Type} (value : α) : α := value

/-- `NullConverter.convert_from_form` (line 22-23): identity. -/
def convert_from_form {α : Type} (value : α) : α := value

end NullConverter

namespace OptionalConverter

/-- `OptionalConverter.convert_to_form` (line 32-33):
`"" if value is None else value`, on string-valued fields. -/
def convert_to_form (value : Option String) : String :=
  match value with
  | none => ""
  | some s => s

/-- `OptionalConverter.convert_from_form` (line 35-36):
`value if value else None`; the empty string is falsy. -/
def convert_from_form (value : String) : Option String :=
  if value = "" then none else some value

end OptionalConverter

namespace Input

/-- `Input.parse` (lines 74-75):
`{self.id: self.converter.convert_from_form(data[self.id][0])} if self.id in data else {}`.
Generic in the converter's `convert_from_form`; the single-entry update dict
is modelled as a singleton association list, the empty update as `[]`. -/
def parse {V : Type} (convert_from_form : String → Except PyErr V)
    (id : String) (data : FormData) : Except PyErr (List (String × V)) :=
  if data.hasKey id then
    match data.firstVal id with
    | .error e => .error e
    | .ok raw =>
      match convert_from_form raw with
      | .error e => .error e
      | .ok v => .ok [(id, v)]
  else
    .ok []

end Input

namespace CheckboxInput

/-- `CheckboxInput.parse` (lines 220-221):
`{self.id: self.id in data and data[self.id][0] == "on"}`.
Python `and` short-circuits, so `data[self.id][0]` is only evaluated (and can
only raise `IndexError`) when the key is present. -/
def parse (id : String) (data : FormData) : Except PyErr (List (String × Bool)) :=
  if data.hasKey id then
    match data.firstVal id with
    | .error e => .error e
    | .ok v => .ok [(id, v == "on")]
  else
    .ok [(id, false)]

/-- Value path of `CheckboxInput.render_input` (line 213):
`"checked" if value else ""`; `None` is falsy. -/
def renderChecked (value : Option Bool) : Bool :=
  match value with
  | none => false
  | some b => b

end CheckboxInput

/-- `l` is a nonempty list of decimal digit characters (the core of what
Python `int()` accepts). -/
def isDigits (l : List Char) : Bool :=
  !l.isEmpty && l.all Char.isDigit

/-- Numeric value of a decimal digit character. -/
def decDigitVal (c : Char) : Nat :=
  c.toNat - 48

/-- Value of a big-endian list of decimal digit characters. -/
def digitsToNat (l : List Char) : Nat :=
  l.foldl (fun a c => 10 * a + decDigitVal c) 0

/-- Decimal digit characters of `n`, most significant first; models CPython's
integer-to-decimal-string conversion via `Nat.digits`. -/
def natDecimalChars (n : Nat) : List Char :=
  ((Nat.digits 10 n).map Nat.digitChar).reverse

/-- Python `str(n)` for a natural number (`str(0) == "0"`). -/
def natDecimalStr (n : Nat) : String :=
  if n = 0 then "0" else String.mk (natDecimalChars n)

/-- Python `str(i)` for an `int`: decimal digits with a leading `-` when
negative. -/
def pyIntStr (i : Int) : String :=
  if i < 0 then "-" ++ natDecimalStr i.natAbs else natDecimalStr i.natAbs

/-- Python `int(s)` on a list of characters: an optional sign followed by a
nonempty run of decimal digits; anything else raises `ValueError`.  (CPython
additionally tolerates surrounding whitespace and embedded underscores, which
no modelled claim exercises.) -/
def pyIntOfChars (l : List Char) : Except PyErr Int :=
  match l with
  | [] => .error .valueError
  | c :: rest =>
    if c = '-' then
      if isDigits rest then .ok (-(digitsToNat rest : Int)) else .error .valueError
    else if c = '+' then
      if isDigits rest then .ok ((digitsToNat rest : Int)) else .error .valueError
    else
      if isDigits (c :: rest) then .ok ((digitsToNat (c :: rest) : Int)) else .error .valueError

/-- Python `int(s)` on a string. -/
def pyIntOfString (s : String) : Except PyErr Int :=
  pyIntOfChars s.toList

namespace IntConverter

/-- `IntConverter.convert_to_form` (lines 88-89): `str(value)`.  Accepts
`None` ("field absent in config"), for which `str` returns `"None"`. -/
def convert_to_form (value : Option Int) : String :=
  match value with
  | none => "None"
  | some i => pyIntStr i

/-- `IntConverter.convert_from_form` (lines 91-92): `int(value)`. -/
def convert_from_form (value : String) : Except PyErr Int :=
  pyIntOfString value

end IntConverter

/-- Syntactic grammar of the decimal-digit mantissa of a Python float
literal: digits, optionally split by a single dot. -/
def floatMantissaOk (l : List Char) : Bool :=
  match l.splitOn '.' with
  | [a] => isDigits a
  | [a, b] => isDigits a && isDigits b
  | _ => false

/-- Syntactic grammar of the exponent part after `e`. -/
def floatExpOk (l : List Char) : Bool :=
  match l with
  | '+' :: rest => isDigits rest
  | '-' :: rest => isDigits rest
  | rest => isDigits rest

/-- Unsigned Python float literal: mantissa with optional `e` exponent. -/
def floatUnsignedOk (l : List Char) : Bool :=
  match l.splitOn 'e' with
  | [m] => floatMantissaOk m
  | [m, ex] => floatMantissaOk m && floatExpOk ex
  | _ => false

/-- Syntactic check for a finite Python float literal (optional sign, then an
unsigned literal).  Every string CPython's `repr` produces for a finite float
is of this shape. -/
def isPyFloatLit (s : String) : Bool :=
  match s.toList with
  | '+' :: rest => floatUnsignedOk rest
  | '-' :: rest => floatUnsignedOk rest
  | rest => floatUnsignedOk rest

/-- A Python float value.  A finite float is identified with its canonical
shortest round-trip `repr` string, which CPython guarantees to be in
bijection with the finite doubles; the three special values are explicit.
This makes `str`/`float()` on canonical representations exact without
embedding IEEE-754 arithmetic. -/
inductive PyFloat where
  | finite (lit : String)
  | inf
  | neginf
  | nan
  deriving DecidableEq, Repr

/-- `v` is a value of the model: a finite float's literal is syntactically a
float literal (in particular not `"nan"`/`"inf"`). -/
def PyFloat.valid : PyFloat → Bool
  | .finite lit => isPyFloatLit lit
  | _ => true

/-- Python `str` on a float: the canonical repr; `str(float("nan")) == "nan"`,
`str(float("inf")) == "inf"`, `str(float("-inf")) == "-inf"`. -/
def PyFloat.str : PyFloat → String
  | .finite lit => lit
  | .inf => "inf"
  | .neginf => "-inf"
  | .nan => "nan"

/-- Python `==` on floats: `nan` is not equal to itself; the infinities and
finite values are equal to themselves.  (Finite floats are compared by their
canonical representations, which identifies numeric equality everywhere
except at `0.0 == -0.0`, not exercised by any modelled claim.) -/
def PyFloat.numEq : PyFloat → PyFloat → Bool
  | .finite a, .finite b => a == b
  | .inf, .inf => true
  | .neginf, .neginf => true
  | _, _ => false

/-- Python `float(s)`: a syntactic float literal denotes the finite float it
canonically represents; the special spellings denote the special values;
anything else raises `ValueError`.  (CPython also strips whitespace, accepts
case variants, and rounds non-canonical literals to the nearest double; no
modelled claim depends on those.) -/
def pyFloatOfString (s : String) : Except PyErr PyFloat :=
  if isPyFloatLit s then .ok (.finite s)
  else if s = "nan" ∨ s = "+nan" ∨ s = "-nan" then .ok .nan
  else if s = "inf" ∨ s = "+inf" ∨ s = "infinity" ∨ s = "+infinity" then .ok .inf
  else if s = "-inf" ∨ s = "-infinity" then .ok .neginf
  else .error .valueError

namespace FloatConverter

/-- `FloatConverter.convert_to_form` (lines 132-133): `str(value)`; `str(None)`
is `"None"`. -/
def convert_to_form (value : Option PyFloat) : String :=
  match value with
  | none => "None"
  | some f => f.str

/-- `FloatConverter.convert_from_form` (lines 135-136): `float(value)`. -/
def convert_from_form (value : String) : Except PyErr PyFloat :=
  pyFloatOfString value

end FloatConverter

/-- Python `s.strip(chars)`: removes characters belonging to `cs` from BOTH
ends of the list (leading and trailing). -/
def stripChars (cs : List Char) (l : List Char) : List Char :=
  (((l.dropWhile (fun c => cs.contains c)).reverse.dropWhile
    (fun c => cs.contains c))).reverse

/-- The spec sentence's reading of the per-line cleanup: strip chars of `cs`
from the TRAILING end only, leaving leading characters unchanged.  Kept
separate from the source translation so the two can be compared. -/
def stripTrailingOnly (cs : List Char) (l : List Char) : List Char :=
  (l.reverse.dropWhile (fun c => cs.contains c)).reverse

/-- Python `s.split(sep)` for a one-character separator `sep`: keeps empty
pieces, and the split of the empty string is `[""]` (one empty piece) -- the
semantics of `str.split` with an explicit separator. -/
def pySplitChars (sep : Char) (l : List Char) : List (List Char) :=
  match l with
  | [] => [[]]
  | c :: rest =>
    match pySplitChars sep rest with
    | [] => if c = sep then [[], [c]] else [[c]]
    | h :: t => if c = sep then [] :: h :: t else (c :: h) :: t

namespace ReceiverKeysConverter

/-- `ReceiverKeysConverter.convert_to_form` (lines 189-190):
`"\n".join(value)`.  Joining `None` raises `TypeError` (`str.join` requires
an iterable). -/
def convert_to_form (value : Option (List String)) : Except PyErr String :=
  match value with
  | none => .error .typeError
  | some xs => .ok (String.intercalate "\n" xs)

/-- `ReceiverKeysConverter.convert_from_form` (lines 192-194):
`[v.strip("\r ") for v in value.split("\n")]`. -/
def convert_from_form (value : String) : List String :=
  (pySplitChars '\n' value.toList).map
    (fun v => String.mk (stripChars ['\r', ' '] v))

/-- What the claim says `convert_from_form` does: strip only trailing
carriage returns and spaces from each line. -/
def claimed_convert_from_form (value : String) : List String :=
  (pySplitChars '\n' value.toList).map
    (fun v => String.mk (stripTrailingOnly ['\r', ' '] v))

end ReceiverKeysConverter

/-- `Option` (lines 224-228): a (value, text) choice pair, used by both
`MultiCheckboxInput` and `DropdownInput`.  Named `FormOption` because
`Option` is taken in Lean; the `value` is a string (the code interpolates it
into checkbox keys). -/
structure FormOption where
  value : String
  text : String
  deriving DecidableEq, Repr

namespace MultiCheckboxInput

/-- `MultiCheckboxInput.checkbox_id` (lines 239-240):
`"{0}-{1}".format(self.id, option.value)`. -/
def checkbox_id (id : String) (o : FormOption) : String :=
  id ++ "-" ++ o.value

/-- `in_response` inside `MultiCheckboxInput.parse` (lines 258-260):
`boxid in data and data[boxid][0] == "on"`; short-circuit `and`, with a
possible `IndexError` on an empty value list. -/
def in_response (id : String) (data : FormData) (o : FormOption) :
    Except PyErr Bool :=
  if data.hasKey (checkbox_id id o) then
    match data.firstVal (checkbox_id id o) with
    | .error e => .error e
    | .ok v => .ok (v == "on")
  else
    .ok false

/-- The list comprehension `[o.value for o in self.options if in_response(o)]`
(line 262), evaluated left to right. -/
def selectedValues (id : String) (data : FormData) :
    List FormOption → Except PyErr (List String)
  | [] => .ok []
  | o :: rest =>
    match in_response id data o with
    | .error e => .error e
    | .ok b =>
      match selectedValues id data rest with
      | .error e => .error e
      | .ok tail => .ok (if b then o.value :: tail else tail)

/-- `MultiCheckboxInput.parse` (lines 257-262): a single-entry update from
the field id to the selected option values. -/
def parse (id : String) (options : List FormOption) (data : FormData) :
    Except PyErr (List (String × List String)) :=
  match selectedValues id data options with
  | .error e => .error e
  | .ok vs => .ok [(id, vs)]

/-- Value path of `MultiCheckboxInput.render_checkbox` (line 253):
`"checked" if option.value in value else ""`.  The membership test
`option.value in None` raises `TypeError`. -/
def render_checkbox (o : FormOption) (value : Option (List String)) :
    Except PyErr Bool :=
  match value with
  | none => .error .typeError
  | some l => .ok (l.contains o.value)

/-- Value path of `MultiCheckboxInput.render_input` (lines 236-237): the
checked flags of the per-option checkboxes; the join evaluates
`render_checkbox` once per declared option, left to right. -/
def renderCheckedFlags (options : List FormOption)
    (value : Option (List String)) : Except PyErr (List Bool) :=
  options.mapM (fun o => render_checkbox o value)

end MultiCheckboxInput

namespace LocationInput

/-- `LocationInput.parse` (lines 175-176):
`{self.id: {k: float(data["{0}-{1}".format(self.id, k)][0]) for k in ["lat", "lon"]}}`.
The dict comprehension evaluates `lat` first, then `lon`; each step can raise
`KeyError` (key absent), `IndexError` (empty value list) or `ValueError`
(malformed float).  The two-key result dict is modelled as a (lat, lon)
pair. -/
def parse (id : String) (data : FormData) :
    Except PyErr (List (String × (PyFloat × PyFloat))) :=
  match data.firstVal (id ++ "-lat") with
  | .error e => .error e
  | .ok latRaw =>
    match pyFloatOfString latRaw with
    | .error e => .error e
    | .ok lat =>
      match data.firstVal (id ++ "-lon") with
      | .error e => .error e
      | .ok lonRaw =>
        match pyFloatOfString lonRaw with
        | .error e => .error e
        | .ok lon => .ok [(id, (lat, lon))]

/-- Value path of `LocationInput.render_sub_input` (lines 163-173): the two
sub-inputs read `value["lat"]` and `value["lon"]`; subscripting `None`
raises `TypeError`. -/
def renderSubValues (value : Option (PyFloat × PyFloat)) :
    Except PyErr (PyFloat × PyFloat) :=
  match value with
  | none => .error .typeError
  | some p => .ok p

end LocationInput

namespace TextInput

/-- Value path of `TextInput.render_input` (lines 79-84): the value is
interpolated into the markup with `format`, which stringifies `None` to
`"None"`; no exception is possible. -/
def renderValueText (value : Option String) : String :=
  match value with
  | none => "None"
  | some s => s

end TextInput

/-- A member of a Python `Enum` class: its `name`, its underlying `value`,
and the result of `str(member)` (customized per enum via `__str__`). -/
structure EnumMember (V : Type) where
  name : String
  value : V
  str : String
  deriving DecidableEq, Repr

/-- A Python `Enum` class, as the ordered list of its members (definition
order, which drives value lookup). -/
structure EnumModel (V : Type) where
  members : List (EnumMember V)
  deriving DecidableEq, Repr

namespace DropdownEnum

/-- `DropdownEnum.toOption` (lines 366-367): `Option(self.name, str(self))`. -/
def toOption {V : Type} (m : EnumMember V) : FormOption :=
  { value := m.name, text := m.str }

end DropdownEnum

namespace EnumConverter

/-- Python `enumCls(value)`: member lookup by underlying value, in definition
order; raises `ValueError` when no member has that value. -/
def lookupByValue {V : Type} [DecidableEq V] (e : EnumModel V) (v : V) :
    Except PyErr (EnumMember V) :=
  match e.members.find? (fun m => decide (m.value = v)) with
  | some m => .ok m
  | none => .error .valueError

/-- Python `enumCls[name]`: member lookup by name; raises `KeyError` when no
member has that name. -/
def lookupByName {V : Type} (e : EnumModel V) (n : String) :
    Except PyErr (EnumMember V) :=
  match e.members.find? (fun m => m.name == n) with
  | some m => .ok m
  | none => .error .keyError

/-- `EnumConverter.convert_to_form` (lines 374-375):
`None if value is None else self.enumCls(value).name`. -/
def convert_to_form {V : Type} [DecidableEq V] (e : EnumModel V)
    (value : Option V) : Except PyErr (Option String) :=
  match value with
  | none => .ok none
  | some v =>
    match lookupByValue e v with
    | .error err => .error err
    | .ok m => .ok (some m.name)

/-- `EnumConverter.convert_from_form` (lines 377-378):
`self.enumCls[value].value`. -/
def convert_from_form {V : Type} (e : EnumModel V) (value : String) :
    Except PyErr V :=
  match lookupByName e value with
  | .error err => .error err
  | .ok m => .ok m.value

end EnumConverter

/-- The `options` argument accepted by `DropdownInput.__init__`:
either a class that is a subclass of `DropdownEnum`, or any other value.
For a non-enum argument the code stores the argument itself as the option
list, so the model carries that value as a `List FormOption`; `isType`
records whether the argument is a class (so that `issubclass` returns
`False`) or not a type at all (so that `issubclass` raises `TypeError`). -/
inductive OptionsArg (V : Type) where
  | enumCls (e : EnumModel V)
  | plainValue (isType : Bool) (opts : List FormOption)

/-- Python `issubclass(options, DropdownEnum)`: `True` for a `DropdownEnum`
subclass, `False` for any other class, `TypeError` when the argument is not
a class. -/
def pyIssubclassDropdownEnum {V : Type} : OptionsArg V → Except PyErr Bool
  | .enumCls _ => .ok true
  | .plainValue isType _ => if isType then .ok false else .error .typeError

/-- The converter field resulting from the constructor chain: the caller's
converter when supplied; otherwise `EnumConverter(options)` for an enum
argument, else the `NullConverter` installed by `Input.__init__` via
`defaultConverter` (line 44, 46-47). -/
inductive DropdownConverter (V : Type) where
  | nullConv
  | enumConv (e : EnumModel V)
  | customConv
  deriving DecidableEq

/-- The fields of a constructed `DropdownInput` relevant to the claims. -/
structure DropdownState (V : Type) where
  options : List FormOption
  converter : DropdownConverter V

/-- The `try/except TypeError` around the subclass check in
`DropdownInput.__init__` (lines 287-290): a `TypeError` from `issubclass`
is caught and turns into `isEnum = False`; only `TypeError` is caught. -/
def tryIsEnum {V : Type} (arg : OptionsArg V) : Except PyErr Bool :=
  match pyIssubclassDropdownEnum arg with
  | .ok b => .ok b
  | .error .typeError => .ok false
  | .error e => .error e

/-- `DropdownInput.__init__` (lines 286-297).  When `isEnum` holds, the
options become each member's `toOption` projection and a missing converter
defaults to `EnumConverter(options)`; otherwise the argument itself is
stored as the option list and a missing converter falls back to the base
class default.  The `isEnum`/`arg` combinations that `issubclass` cannot
produce (`true` with a non-class, `false` with an enum class) are given the
semantics of the corresponding reachable branch. -/
def DropdownInput.init {V : Type} (arg : OptionsArg V)
    (converter : Option (DropdownConverter V)) :
    Except PyErr (DropdownState V) :=
  match tryIsEnum arg with
  | .error e => .error e
  | .ok isEnum =>
    if isEnum then
      match arg with
      | .enumCls e =>
        .ok { options := e.members.map DropdownEnum.toOption
              converter := converter.getD (.enumConv e) }
      | .plainValue _ opts =>
        .ok { options := opts, converter := converter.getD .nullConv }
    else
      match arg with
      | .enumCls e =>
        .ok { options := e.members.map DropdownEnum.toOption
              converter := converter.getD .nullConv }
      | .plainValue _ opts =>
        .ok { options := opts, converter := converter.getD .nullConv }

namespace Q65ModeConverter

/-- `Q65ModeConverter.convert_to_form` (lines 321-322): the body is `pass`,
so the call returns `None` for every argument and never raises. -/
def convert_to_form {α β : Type} (value : Option α) : Option β :=
  match value with
  | none => none
  | some _ => none

/-- `Q65ModeConverter.convert_from_form` (lines 324-325): `pass`. -/
def convert_from_form {α β : Type} (value : Option α) : Option β :=
  match value with
  | none => none
  | some _ => none

end Q65ModeConverter

namespace Q65ModeMatrix

/-- `Q65ModeMatrix.checkbox_id` (lines 329-330):
`"{0}-{1}-{2}".format(self.id, mode.value, interval)`. -/
def checkbox_id (id : String) (modeValue : String) (interval : Nat) : String :=
  id ++ "-" ++ modeValue ++ "-" ++ toString interval

/-- Value path of `Q65ModeMatrix.render_checkbox` (line 343):
`"checked" if [interval, mode.name] in value else ""`; membership in `None`
raises `TypeError`.  A mode is modelled as its (value, name) pair and the
current field value as a list of (interval, mode name) cells. -/
def render_checkbox (interval : Nat) (modeName : String)
    (value : Option (List (Nat × String))) : Except PyErr Bool :=
  match value with
  | none => .error .typeError
  | some cells => .ok (cells.contains (interval, modeName))

/-- Value path of `Q65ModeMatrix.render_input` (lines 347-352): one checkbox
per cell of the cartesian product, outer loop over the available intervals,
inner loop over the modes.  `Q65Mode` and `Q65Profile.availableIntervals`
live in `owrx.wsjt`, outside the sources at hand, so the two lists are
parameters here. -/
def renderCheckedFlags (modes : List (String × String)) (intervals : List Nat)
    (value : Option (List (Nat × String))) : Except PyErr (List Bool) :=
  (intervals.flatMap (fun i => modes.map (fun m => (i, m.2)))).mapM
    (fun cell => render_checkbox cell.1 cell.2 value)

/-- `Q65ModeMatrix` does not override `parse`, so the inherited `Input.parse`
runs with the inherited default `NullConverter` (lines 44, 46-47, 74-75). -/
def parse (id : String) (data : FormData) :
    Except PyErr (List (String × String)) :=
  Input.parse (fun v => .ok (NullConverter.convert_from_form v)) id data

end Q65ModeMatrix

/-- The concrete `AprsBeaconSymbols` enum (lines 396-413), a `DropdownEnum`
whose member values are strings and whose `str` is
`"{description} ({symbol})"`. -/
def aprsBeaconSymbols : EnumModel String :=
  { members :=
    [ { name := "BEACON_RECEIVE_ONLY", value := "R&",
        str := "Receive only IGate (R&)" },
      { name := "BEACON_HF_GATEWAY", value := "/&",
        str := "HF Gateway (/&)" },
      { name := "BEACON_IGATE_GENERIC", value := "I&",
        str := "Igate Generic (please use more specific overlay) (I&)" },
      { name := "BEACON_PSKMAIL", value := "P&",
        str := "PSKmail node (P&)" },
      { name := "BEACON_TX_1", value := "T&",
        str := "TX IGate with path set to 1 hop (T&)" },
      { name := "BEACON_WIRES_X", value := "W&",
        str := "Wires-X (W&)" },
      { name := "BEACON_TX_2", value := "2&",
        str := "TX IGate with path set to 2 hops (2&)" } ] }

/-- The converter variants defined in the file (spec §4.1). -/
inductive ConverterVariant where
  | nullConv
  | optionalConv
  | intConv
  | floatConv
  | receiverKeysConv
  | enumConv
  | q65ModeConv
  deriving DecidableEq, Repr

/-- Each variant's `convert_to_form` applied to `None` ("field absent in
config"), reduced to whether the call raises.  The pure variants cannot
raise, so their application is wrapped in `.ok`; `EnumConverter` is applied
bound to the concrete `AprsBeaconSymbols` enum (its `None` branch does not
consult the enum). -/
def convert_to_form_at_none : ConverterVariant → Except PyErr Unit
  | .nullConv =>
    (Except.ok (NullConverter.convert_to_form (none : Option Unit))).map
      (fun _ => ())
  | .optionalConv =>
    (Except.ok (OptionalConverter.convert_to_form none)).map (fun _ => ())
  | .intConv =>
    (Except.ok (IntConverter.convert_to_form none)).map (fun _ => ())
  | .floatConv =>
    (Except.ok (FloatConverter.convert_to_form none)).map (fun _ => ())
  | .receiverKeysConv =>
    (ReceiverKeysConverter.convert_to_form none).map (fun _ => ())
  | .enumConv =>
    (EnumConverter.convert_to_form aprsBeaconSymbols none).map (fun _ => ())
  | .q65ModeConv =>
    (Except.ok (Q65ModeConverter.convert_to_form (α := Unit) (β := Unit) none)).map
      (fun _ => ())

namespace Input

/-- Value acquisition step of `Input.render` (line 71):
`value = config[self.id] if self.id in config else None`, before the value is
passed through `converter.convert_to_form` and into `render_input`.  The
config snapshot is an association list like `FormData`, with values of the
field's domain type. -/
def renderValue {V : Type} (config : List (String × V)) (id : String) :
    Option V :=
  (List.find? (fun e => e.1 == id) config).map (fun e => e.2)

end Input

/-! ## Helper lemmas -/

theorem FormData.lookup_mem {d : FormData} {k : String} {l : List String}
    (h : d.lookup k = some l) : (k, l) ∈ d := by
  unfold FormData.lookup at h
  cases hf : List.find? (fun e => e.1 == k) d with
  | none => rw [hf] at h; simp at h
  | some e =>
    rw [hf] at h
    have hk : e.1 = k := by
      have := List.find?_some hf
      simpa using this
    have hm := List.mem_of_find?_eq_some hf
    simp at h
    have : (k, l) = e := by
      cases e
      simp_all
    rwa [this]

theorem FormData.lookup_eq_none {d : FormData} {k : String}
    (h : ∀ e ∈ d, e.1 ≠ k) : d.lookup k = none := by
  unfold FormData.lookup
  rw [List.find?_eq_none.mpr]
  · rfl
  · intro e he
    simpa using h e he

/-- `Input.parse` behaviour, split by presence of the key (claim C4's two
cases). -/
theorem input_parse_present {V : Type} (conv : String → Except PyErr V)
    (id : String) (d : FormData) (v : String) (rest : List String)
    (hlk : d.lookup id = some (v :: rest)) :
    Input.parse conv id d = (conv v).map (fun x => [(id, x)]) := by
  unfold Input.parse FormData.hasKey FormData.firstVal
  rw [hlk]
  cases h : conv v <;> simp [h, Except.map]

theorem input_parse_absent {V : Type} (conv : String → Except PyErr V)
    (id : String) (d : FormData) (hlk : d.lookup id = none) :
    Input.parse conv id d = .ok [] := by
  unfold Input.parse FormData.hasKey
  rw [hlk]
  simp

/-- Claim C4: the default `Input.parse` returns the single-entry update
`{id: convert_from_form(first value)}` when the field's id is a key of the
submitted data, and the empty update `{}` (a no-op, never an error) when the
id is absent. -/
theorem C4_default_input_parse {V : Type} (conv : String → Except PyErr V)
    (id : String) (d : FormData) :
    (∀ v rest, d.lookup id = some (v :: rest) →
      Input.parse conv id d = (conv v).map (fun x => [(id, x)])) ∧
    (d.lookup id = none → Input.parse conv id d = .ok []) :=
  ⟨fun v rest h => input_parse_present conv id d v rest h,
   fun h => input_parse_absent conv id d h⟩

/-- Witness for C4 at concrete inputs: a present key yields the converted
single-entry update, an absent key yields the empty update. -/
theorem C4_default_input_parse_witness :
    Input.parse (fun v => (Except.ok v : Except PyErr String)) "key"
      [("key", ["hello"]), ("other", ["x"])] = .ok [("key", "hello")] ∧
    Input.parse (fun v => (Except.ok v : Except PyErr String)) "key"
      [("other", ["x"])] = .ok [] := by
  constructor
  · have h := (C4_default_input_parse (fun v => (Except.ok v : Except PyErr String))
      "key" [("key", ["hello"]), ("other", ["x"])]).1 "hello" [] (by decide)
    simpa [Except.map] using h
  · exact (C4_default_input_parse (fun v => (Except.ok v : Except PyErr String))
      "key" [("other", ["x"])]).2 (by decide)

/-- Claim C2: `CheckboxInput.parse` always returns a definite single-entry
boolean update: for every submission whose value sequences are nonempty,
the update is `{id: (id in data and first value of data[id] == "on")}`;
in particular the empty submission yields `{id: false}` and a submission of
`"on"` under the id yields `{id: true}`. -/
theorem C2_checkbox_parse (id : String) (d : FormData)
    (hne : ∀ e ∈ d, e.2 ≠ []) :
    CheckboxInput.parse id d = .ok [(id, d.hasKey id && d.submittedOn id)] := by
  unfold CheckboxInput.parse FormData.hasKey FormData.submittedOn FormData.firstVal
  cases hlk : d.lookup id with
  | none => simp
  | some l =>
    cases l with
    | nil => exact absurd rfl (hne (id, []) (FormData.lookup_mem hlk))
    | cons v rest => simp

/-- Witness for C2: `parse({})` yields `{id: False}` and
`parse({id: ["on"]})` yields `{id: True}`. -/
theorem C2_checkbox_parse_witness :
    CheckboxInput.parse "x" [] = .ok [("x", false)] ∧
    CheckboxInput.parse "x" [("x", ["on"])] = .ok [("x", true)] := by
  constructor
  · have h := C2_checkbox_parse "x" [] (by simp)
    simpa using h
  · have h := C2_checkbox_parse "x" [("x", ["on"])] (by simp)
    simpa using h

/-- Claim C10: `Q65ModeMatrix` inherits the base `Input.parse`, so a
submission containing only matrix-cell keys of the form
`"{id}-{mode}-{interval}"` (never the bare id) parses to the empty update:
the matrix selection is never reconstructed. -/
theorem C10_q65_matrix_parse_empty (id : String) (d : FormData)
    (h : ∀ e ∈ d, ∃ rest : String, e.1 = id ++ "-" ++ rest) :
    Q65ModeMatrix.parse id d = .ok [] := by
  apply input_parse_absent
  apply FormData.lookup_eq_none
  intro e he
  obtain ⟨rest, hrest⟩ := h e he
  intro hcontra
  have hlen : (id ++ "-" ++ rest).length = id.length + 1 + rest.length := by
    simp [String.length_append, (by decide : "-".length = 1)]
  rw [hrest] at hcontra
  have : id.length + 1 + rest.length = id.length := by rw [← hlen, hcontra]
  omega

/-- Witness for C10: a submitted two-cell matrix selection parses to the
empty update. -/
theorem C10_q65_matrix_parse_empty_witness :
    Q65ModeMatrix.parse "q65" [("q65-65A-15", ["on"]), ("q65-65B-30", ["on"])] =
      .ok [] := by
  apply C10_q65_matrix_parse_empty
  intro e he
  simp only [List.mem_cons, List.mem_singleton] at he
  rcases he with h | h | h
  · exact ⟨"65A-15", by rw [h]; decide⟩
  · exact ⟨"65B-30", by rw [h]; decide⟩
  · cases h

theorem in_response_eq (id : String) (d : FormData) (o : FormOption)
    (hne : ∀ e ∈ d, e.2 ≠ []) :
    MultiCheckboxInput.in_response id d o =
      .ok (d.submittedOn (MultiCheckboxInput.checkbox_id id o)) := by
  unfold MultiCheckboxInput.in_response FormData.hasKey FormData.submittedOn
    FormData.firstVal
  cases hlk : d.lookup (MultiCheckboxInput.checkbox_id id o) with
  | none => simp
  | some l =>
    cases l with
    | nil =>
      exact absurd rfl
        (hne (MultiCheckboxInput.checkbox_id id o, []) (FormData.lookup_mem hlk))
    | cons v rest => simp

theorem selectedValues_eq (id : String) (d : FormData)
    (options : List FormOption) (hne : ∀ e ∈ d, e.2 ≠ []) :
    MultiCheckboxInput.selectedValues id d options =
      .ok ((options.filter
        (fun o => d.submittedOn (MultiCheckboxInput.checkbox_id id o))).map
          (fun o => o.value)) := by
  induction options with
  | nil => rfl
  | cons o rest ih =>
    unfold MultiCheckboxInput.selectedValues
    rw [in_response_eq id d o hne, ih]
    cases hb : d.submittedOn (MultiCheckboxInput.checkbox_id id o) <;>
      simp [List.filter_cons, hb]

/-- Claim C5: `MultiCheckboxInput.parse` returns the single-entry update from
the field id to the values of exactly those declared options whose checkbox
key was submitted with first value `"on"`, and the resulting list is ordered
by (is a sublist of) the declared option order, not by submission order. -/
theorem C5_multicheckbox_parse (id : String) (options : List FormOption)
    (d : FormData) (hne : ∀ e ∈ d, e.2 ≠ []) :
    ∃ vs, MultiCheckboxInput.parse id options d = .ok [(id, vs)] ∧
      vs = (options.filter
        (fun o => d.submittedOn (MultiCheckboxInput.checkbox_id id o))).map
          (fun o => o.value) ∧
      vs.Sublist (options.map (fun o => o.value)) := by
  refine ⟨_, ?_, rfl, ?_⟩
  · unfold MultiCheckboxInput.parse
    rw [selectedValues_eq id d options hne]
  · exact List.Sublist.map _ (List.filter_sublist options)

/-- Witness for C5: with options declared `[A, B, C]` and only B and A
submitted as checked, the parsed list is `[a, b]` in declaration order. -/
theorem C5_multicheckbox_parse_witness :
    MultiCheckboxInput.parse "sel"
      [⟨"a", "A"⟩, ⟨"b", "B"⟩, ⟨"c", "C"⟩]
      [("sel-b", ["on"]), ("sel-a", ["on"])] = .ok [("sel", ["a", "b"])] := by
  obtain ⟨vs, h1, h2, _⟩ := C5_multicheckbox_parse "sel"
    [⟨"a", "A"⟩, ⟨"b", "B"⟩, ⟨"c", "C"⟩]
    [("sel-b", ["on"]), ("sel-a", ["on"])] (by simp)
  rw [h1, h2]
  rfl

/-- Claim C8: `LocationInput.parse` assumes both sub-keys are present.  When
both `"{id}-lat"` and `"{id}-lon"` are submitted with parseable first values
it returns the composite update; when the `lat` sub-key is absent it raises
`KeyError`; when the `lon` sub-key is absent (the `lat` one having parsed) it
also raises `KeyError` — never an empty or partial update. -/
theorem C8_location_parse (id : String) (d : FormData) :
    (∀ latv lonv r1 r2 lat lon,
      d.lookup (id ++ "-lat") = some (latv :: r1) →
      d.lookup (id ++ "-lon") = some (lonv :: r2) →
      pyFloatOfString latv = .ok lat →
      pyFloatOfString lonv = .ok lon →
      LocationInput.parse id d = .ok [(id, (lat, lon))]) ∧
    (d.lookup (id ++ "-lat") = none →
      LocationInput.parse id d = .error .keyError) ∧
    (∀ latv r1 lat,
      d.lookup (id ++ "-lat") = some (latv :: r1) →
      pyFloatOfString latv = .ok lat →
      d.lookup (id ++ "-lon") = none →
      LocationInput.parse id d = .error .keyError) := by
  refine ⟨?_, ?_, ?_⟩
  · intro latv lonv r1 r2 lat lon hlat hlon hplat hplon
    unfold LocationInput.parse FormData.firstVal
    rw [hlat, hlon]
    simp [hplat, hplon]
  · intro hlat
    unfold LocationInput.parse FormData.firstVal
    rw [hlat]
  · intro latv r1 lat hlat hplat hlon
    unfold LocationInput.parse FormData.firstVal
    rw [hlat, hlon]
    simp [hplat]

/-- Witness for C8: a full submission parses to the composite update, and
dropping either sub-key raises `KeyError`. -/
theorem C8_location_parse_witness :
    LocationInput.parse "loc" [("loc-lat", ["1.5"]), ("loc-lon", ["2.5"])] =
      .ok [("loc", (.finite "1.5", .finite "2.5"))] ∧
    LocationInput.parse "loc" [("loc-lon", ["2.5"])] = .error .keyError ∧
    LocationInput.parse "loc" [("loc-lat", ["1.5"])] = .error .keyError := by
  refine ⟨?_, ?_, ?_⟩
  · exact (C8_location_parse "loc" [("loc-lat", ["1.5"]), ("loc-lon", ["2.5"])]).1
      "1.5" "2.5" [] [] (.finite "1.5") (.finite "2.5")
      (by decide) (by decide) (by rfl) (by rfl)
  · exact (C8_location_parse "loc" [("loc-lon", ["2.5"])]).2.1 (by decide)
  · exact (C8_location_parse "loc" [("loc-lat", ["1.5"])]).2.2
      "1.5" [] (.finite "1.5") (by decide) (by rfl) (by decide)

theorem exceptMapM_error_head {α β : Type} (f : α → Except PyErr β) (a : α)
    (l : List α) (e : PyErr) (h : f a = .error e) :
    (a :: l).mapM f = .error e := by
  rw [List.mapM_cons, h]
  rfl

theorem renderValue_eq_none {V : Type} {config : List (String × V)}
    {id : String} (h : ∀ e ∈ config, e.1 ≠ id) :
    Input.renderValue config id = none := by
  unfold Input.renderValue
  rw [List.find?_eq_none.mpr]
  · rfl
  · intro e he
    simpa using h e he

/-- Claim C9: on a config mapping lacking the field's id, `render` raises for
the list-valued and composite variants — `MultiCheckboxInput` and
`Q65ModeMatrix` pass the resulting `None` through the identity
`NullConverter` and test membership with `in None` (`TypeError`), and
`LocationInput` subscripts `None` (`TypeError`) — while the scalar and
boolean value paths accept the absent value. -/
theorem C9_render_absent_key :
    (∀ (config : List (String × List String)) (id : String)
      (options : List FormOption), (∀ e ∈ config, e.1 ≠ id) → options ≠ [] →
      MultiCheckboxInput.renderCheckedFlags options
        (NullConverter.convert_to_form (Input.renderValue config id)) =
          .error .typeError) ∧
    (∀ (config : List (String × List (Nat × String))) (id : String)
      (modes : List (String × String)) (intervals : List Nat),
      (∀ e ∈ config, e.1 ≠ id) → modes ≠ [] → intervals ≠ [] →
      Q65ModeMatrix.renderCheckedFlags modes intervals
        (NullConverter.convert_to_form (Input.renderValue config id)) =
          .error .typeError) ∧
    (∀ (config : List (String × (PyFloat × PyFloat))) (id : String),
      (∀ e ∈ config, e.1 ≠ id) →
      LocationInput.renderSubValues
        (NullConverter.convert_to_form (Input.renderValue config id)) =
          .error .typeError) ∧
    (∀ (config : List (String × String)) (id : String),
      (∀ e ∈ config, e.1 ≠ id) →
      TextInput.renderValueText
        (NullConverter.convert_to_form (Input.renderValue config id)) =
          "None") ∧
    (∀ (config : List (String × Bool)) (id : String),
      (∀ e ∈ config, e.1 ≠ id) →
      CheckboxInput.renderChecked
        (NullConverter.convert_to_form (Input.renderValue config id)) =
          false) := by
  refine ⟨?_, ?_, ?_, ?_, ?_⟩
  · intro config id options habs hopt
    obtain ⟨o, rest, rfl⟩ := List.exists_cons_of_ne_nil hopt
    rw [renderValue_eq_none habs]
    unfold MultiCheckboxInput.renderCheckedFlags NullConverter.convert_to_form
    exact exceptMapM_error_head _ o rest _ rfl
  · intro config id modes intervals habs hm hi
    obtain ⟨m, mrest, rfl⟩ := List.exists_cons_of_ne_nil hm
    obtain ⟨i, irest, rfl⟩ := List.exists_cons_of_ne_nil hi
    rw [renderValue_eq_none habs]
    unfold Q65ModeMatrix.renderCheckedFlags NullConverter.convert_to_form
    rw [List.flatMap_cons, List.map_cons, List.cons_append]
    exact exceptMapM_error_head _ _ _ _ rfl
  · intro config id habs
    rw [renderValue_eq_none habs]
    rfl
  · intro config id habs
    rw [renderValue_eq_none habs]
    rfl
  · intro config id habs
    rw [renderValue_eq_none habs]
    rfl

/-- Witness for C9 at concrete fields: a one-option multi-checkbox, a
one-cell matrix and a location field each raise `TypeError` on an absent
key, while a text field and a boolean checkbox render it as absent. -/
theorem C9_render_absent_key_witness :
    MultiCheckboxInput.renderCheckedFlags [⟨"a", "A"⟩]
      (NullConverter.convert_to_form
        (Input.renderValue ([("other", ["a"])] : List (String × List String))
          "sel")) = .error .typeError ∧
    Q65ModeMatrix.renderCheckedFlags [("65A", "Q65A")] [15]
      (NullConverter.convert_to_form
        (Input.renderValue ([] : List (String × List (Nat × String))) "q65")) =
          .error .typeError ∧
    LocationInput.renderSubValues
      (NullConverter.convert_to_form
        (Input.renderValue ([] : List (String × (PyFloat × PyFloat))) "loc")) =
          .error .typeError ∧
    TextInput.renderValueText
      (NullConverter.convert_to_form
        (Input.renderValue ([] : List (String × String)) "t")) = "None" ∧
    CheckboxInput.renderChecked
      (NullConverter.convert_to_form
        (Input.renderValue ([] : List (String × Bool)) "b")) = false := by
  refine ⟨?_, ?_, ?_, ?_, ?_⟩
  · exact C9_render_absent_key.1 [("other", ["a"])] "sel" [⟨"a", "A"⟩]
      (by simp) (by simp)
  · exact C9_render_absent_key.2.1 [] "q65" [("65A", "Q65A")] [15]
      (by simp) (by simp) (by simp)
  · exact C9_render_absent_key.2.2.1 [] "loc" (by simp)
  · exact C9_render_absent_key.2.2.2.1 [] "t" (by simp)
  · exact C9_render_absent_key.2.2.2.2 [] "b" (by simp)

/-- Claim C7: `DropdownInput` construction never raises on the enum type
check: a non-`DropdownEnum` argument (a plain option list, or not a type at
all, where `issubclass` raises a caught `TypeError`) is stored as the option
list unchanged; a `DropdownEnum` subclass yields each member's `toOption`
projection as the option list and, when no explicit converter was supplied,
an `EnumConverter` bound to that enum. -/
theorem C7_dropdown_init {V : Type} (arg : OptionsArg V)
    (conv : Option (DropdownConverter V)) :
    ∃ st, DropdownInput.init arg conv = .ok st ∧
      (∀ isType opts, arg = .plainValue isType opts → st.options = opts) ∧
      (∀ e, arg = .enumCls e →
        st.options = e.members.map DropdownEnum.toOption ∧
        (conv = none → st.converter = .enumConv e)) := by
  cases arg with
  | enumCls e =>
    refine ⟨_, rfl, ?_, ?_⟩
    · intro isType opts h
      cases h
    · intro e2 h
      injection h with he
      subst he
      refine ⟨rfl, fun hc => ?_⟩
      subst hc
      rfl
  | plainValue isType opts =>
    cases isType with
    | true =>
      refine ⟨_, rfl, ?_, ?_⟩
      · intro t o h
        injection h with h1 h2
      · intro e2 h
        cases h
    | false =>
      refine ⟨_, rfl, ?_, ?_⟩
      · intro t o h
        injection h with h1 h2
      · intro e2 h
        cases h

/-- Witness for C7: a non-type argument is kept as a plain option list
without raising, and the concrete `AprsBeaconSymbols` enum yields its
members' option projections plus a bound `EnumConverter` by default. -/
theorem C7_dropdown_init_witness :
    (DropdownInput.init (V := String) (.plainValue false [⟨"a", "A"⟩])
      none).map (fun st => st.options) = .ok [⟨"a", "A"⟩] ∧
    (DropdownInput.init (.enumCls aprsBeaconSymbols) none).map
      (fun st => (st.options, st.converter)) =
        .ok (aprsBeaconSymbols.members.map DropdownEnum.toOption,
          .enumConv aprsBeaconSymbols) := by
  constructor
  · obtain ⟨st1, h1, hp1, _⟩ := C7_dropdown_init (V := String)
      (.plainValue false [⟨"a", "A"⟩]) none
    rw [h1]
    simp [Except.map, hp1 false [⟨"a", "A"⟩] rfl]
  · obtain ⟨st2, h2, _, he2⟩ := C7_dropdown_init
      (.enumCls aprsBeaconSymbols) none
    obtain ⟨ho, hc⟩ := he2 aprsBeaconSymbols rfl
    rw [h2]
    simp [Except.map, ho, hc rfl]

theorem decDigitVal_digitChar (d : Nat) (h : d < 10) :
    decDigitVal (Nat.digitChar d) = d := by
  interval_cases d <;> rfl

theorem digitChar_isDigit (d : Nat) (h : d < 10) :
    (Nat.digitChar d).isDigit = true := by
  interval_cases d <;> rfl

theorem digitsToNat_append_single (l : List Char) (c : Char) :
    digitsToNat (l ++ [c]) = 10 * digitsToNat l + decDigitVal c := by
  unfold digitsToNat
  rw [List.foldl_append]
  rfl

theorem digitsToNat_reverse_map (ds : List Nat) (h : ∀ d ∈ ds, d < 10) :
    digitsToNat ((ds.map Nat.digitChar).reverse) = Nat.ofDigits 10 ds := by
  induction ds with
  | nil => rfl
  | cons d t ih =>
    rw [List.map_cons, List.reverse_cons, digitsToNat_append_single,
      ih (fun x hx => h x (List.mem_cons_of_mem _ hx)),
      decDigitVal_digitChar d (h d (List.mem_cons_self _ _)),
      Nat.ofDigits_cons]
    ring

theorem digitsToNat_natDecimalChars (n : Nat) :
    digitsToNat (natDecimalChars n) = n := by
  unfold natDecimalChars
  rw [digitsToNat_reverse_map _ (fun d hd => Nat.digits_lt_base (by norm_num) hd)]
  exact_mod_cast Nat.ofDigits_digits 10 n

theorem natDecimalChars_all_digits (n : Nat) :
    ∀ c ∈ natDecimalChars n, c.isDigit = true := by
  intro c hc
  unfold natDecimalChars at hc
  rw [List.mem_reverse, List.mem_map] at hc
  obtain ⟨d, hd, rfl⟩ := hc
  exact digitChar_isDigit d (Nat.digits_lt_base (by norm_num) hd)

theorem natDecimalChars_ne_nil (n : Nat) (h : n ≠ 0) :
    natDecimalChars n ≠ [] := by
  unfold natDecimalChars
  simp [Nat.digits_ne_nil_iff_ne_zero, h]

theorem isDigits_of_all (l : List Char) (hne : l ≠ [])
    (hd : ∀ c ∈ l, c.isDigit = true) : isDigits l = true := by
  unfold isDigits
  simp [List.isEmpty_iff, hne, List.all_eq_true]
  exact hd

theorem pyIntOfChars_digits (l : List Char) (hne : l ≠ [])
    (hd : ∀ c ∈ l, c.isDigit = true) :
    pyIntOfChars l = .ok ((digitsToNat l : Int)) := by
  cases l with
  | nil => exact absurd rfl hne
  | cons c t =>
    have hc : c.isDigit = true := hd c (List.mem_cons_self _ _)
    have h1 : c ≠ '-' := by
      intro h
      rw [h] at hc
      exact absurd hc (by decide)
    have h2 : c ≠ '+' := by
      intro h
      rw [h] at hc
      exact absurd hc (by decide)
    simp only [pyIntOfChars]
    rw [if_neg h1, if_neg h2, if_pos (isDigits_of_all _ hne hd)]

theorem pyInt_roundtrip (i : Int) : pyIntOfString (pyIntStr i) = .ok i := by
  unfold pyIntStr pyIntOfString
  by_cases hneg : i < 0
  · have habs : i.natAbs ≠ 0 := by omega
    rw [if_pos hneg]
    unfold natDecimalStr
    rw [if_neg habs]
    have htl : ("-" ++ String.mk (natDecimalChars i.natAbs)).toList =
        '-' :: natDecimalChars i.natAbs := by
      show ("-" ++ String.mk (natDecimalChars i.natAbs)).data = _
      rw [String.data_append]
      rfl
    rw [htl]
    simp only [pyIntOfChars, if_true]
    rw [if_pos (isDigits_of_all _ (natDecimalChars_ne_nil _ habs)
        (natDecimalChars_all_digits _)),
      digitsToNat_natDecimalChars]
    congr 1
    omega
  · rw [if_neg hneg]
    unfold natDecimalStr
    by_cases hz : i.natAbs = 0
    · rw [if_pos hz]
      have : i = 0 := by omega
      subst this
      rfl
    · rw [if_neg hz]
      have htl : (String.mk (natDecimalChars i.natAbs)).toList =
          natDecimalChars i.natAbs := rfl
      rw [htl, pyIntOfChars_digits _ (natDecimalChars_ne_nil _ hz)
        (natDecimalChars_all_digits _), digitsToNat_natDecimalChars]
      congr 1
      omega

theorem pyFloat_roundtrip (f : PyFloat) (hv : f.valid = true) (hnan : f ≠ .nan) :
    ∃ g, pyFloatOfString f.str = .ok g ∧ g.numEq f = true := by
  cases f with
  | finite lit =>
    have hv2 : isPyFloatLit lit = true := by simpa [PyFloat.valid] using hv
    refine ⟨.finite lit, ?_, ?_⟩
    · show pyFloatOfString lit = .ok (.finite lit)
      unfold pyFloatOfString
      rw [if_pos hv2]
    · simp [PyFloat.numEq]
  | inf => exact ⟨.inf, rfl, rfl⟩
  | neginf => exact ⟨.neginf, rfl, rfl⟩
  | nan => exact absurd rfl hnan

theorem find?_name_of_nodup {V : Type} (l : List (EnumMember V))
    (hn : (l.map EnumMember.name).Nodup) (m : EnumMember V) (hm : m ∈ l) :
    l.find? (fun x => x.name == m.name) = some m := by
  induction l with
  | nil => cases hm
  | cons a t ih =>
    rw [List.map_cons, List.nodup_cons] at hn
    rcases List.mem_cons.mp hm with h | h
    · subst h
      simp [List.find?_cons]
    · have hne : a.name ≠ m.name := by
        intro hcontra
        exact hn.1 (hcontra ▸ List.mem_map_of_mem EnumMember.name h)
      have hb : (a.name == m.name) = false := by simpa using hne
      rw [List.find?_cons, hb]
      exact ih hn.2 h

theorem enum_roundtrip {V : Type} [DecidableEq V] (e : EnumModel V)
    (hn : (e.members.map EnumMember.name).Nodup) (v : V) (n : String)
    (h : EnumConverter.convert_to_form e (some v) = .ok (some n)) :
    EnumConverter.convert_from_form e n = .ok v := by
  cases hf : e.members.find? (fun m => decide (m.value = v)) with
  | none =>
    simp [EnumConverter.convert_to_form, EnumConverter.lookupByValue, hf] at h
  | some m =>
    simp [EnumConverter.convert_to_form, EnumConverter.lookupByValue, hf] at h
    have hmem := List.mem_of_find?_eq_some hf
    have hval : m.value = v := by
      have hp := List.find?_some hf
      simpa using hp
    have hname : EnumConverter.convert_from_form e m.name = .ok m.value := by
      unfold EnumConverter.convert_from_form EnumConverter.lookupByName
      rw [find?_name_of_nodup e.members hn m hmem]
    rw [← h, hname, hval]

/-- Counterexample to C1 as stated: `float("nan")` is a representable float
value, its round trip through `FloatConverter` returns `nan` again, and
Python numeric equality `nan == nan` is `False` — so the round trip does not
hold for *every* float. -/
theorem C1_nan_counterexample :
    PyFloat.nan.valid = true ∧
    FloatConverter.convert_from_form
      (FloatConverter.convert_to_form (some .nan)) = .ok .nan ∧
    PyFloat.numEq .nan .nan = false :=
  ⟨rfl, rfl, rfl⟩

/-- Claim C1 (amended): the converter round trip
`convert_from_form(convert_to_form(v)) == v` holds for `IntConverter` on
every integer, for `FloatConverter` on every representable float other than
`nan` (numeric equality), and for `EnumConverter` bound to an enum (with its
necessarily distinct member names) on every underlying member value. -/
theorem C1_converter_roundtrip {V : Type} [DecidableEq V] :
    (∀ i : Int, IntConverter.convert_from_form
      (IntConverter.convert_to_form (some i)) = .ok i) ∧
    (∀ f : PyFloat, f.valid = true → f ≠ .nan →
      ∃ g, FloatConverter.convert_from_form
        (FloatConverter.convert_to_form (some f)) = .ok g ∧
        g.numEq f = true) ∧
    (∀ e : EnumModel V, (e.members.map EnumMember.name).Nodup →
      ∀ v n, EnumConverter.convert_to_form e (some v) = .ok (some n) →
        EnumConverter.convert_from_form e n = .ok v) := by
  refine ⟨?_, ?_, ?_⟩
  · intro i
    exact pyInt_roundtrip i
  · intro f hv hnan
    exact pyFloat_roundtrip f hv hnan
  · intro e hn v n h
    exact enum_roundtrip e hn v n h

/-- Witness for C1 at concrete inputs: `-42` round-trips through
`IntConverter`, the float `1.5` round-trips through `FloatConverter`, and
the `AprsBeaconSymbols` value `"P&"` round-trips through an `EnumConverter`
bound to that enum. -/
theorem C1_converter_roundtrip_witness :
    IntConverter.convert_from_form
      (IntConverter.convert_to_form (some (-42))) = .ok (-42) ∧
    FloatConverter.convert_from_form
      (FloatConverter.convert_to_form (some (.finite "1.5"))) =
        .ok (.finite "1.5") ∧
    EnumConverter.convert_from_form aprsBeaconSymbols "BEACON_PSKMAIL" =
      .ok "P&" := by
  refine ⟨?_, ?_, ?_⟩
  · exact (C1_converter_roundtrip (V := String)).1 (-42)
  · obtain ⟨g, hg, he⟩ := (C1_converter_roundtrip (V := String)).2.1
      (.finite "1.5") (by decide) (by decide)
    cases g with
    | finite lit =>
      have : lit = "1.5" := by simpa [PyFloat.numEq] using he
      subst this
      exact hg
    | inf => simp [PyFloat.numEq] at he
    | neginf => simp [PyFloat.numEq] at he
    | nan => simp [PyFloat.numEq] at he
  · exact (C1_converter_roundtrip (V := String)).2.2 aprsBeaconSymbols
      (by decide) "P&" "BEACON_PSKMAIL" (by rfl)

/-- Counterexample to C3 as stated: `ReceiverKeysConverter.convert_to_form`
called with `None` is `"\n".join(None)`, which raises `TypeError` — so not
every converter variant accepts an absent value. -/
theorem C3_receiver_keys_none_counterexample :
    ReceiverKeysConverter.convert_to_form none = .error .typeError ∧
    convert_to_form_at_none .receiverKeysConv = .error .typeError :=
  ⟨rfl, rfl⟩

/-- Claim C3 (amended): every converter variant except
`ReceiverKeysConverter` can be called with `value = None` without raising;
in particular `EnumConverter.convert_to_form` returns `None` for `None`
under any enum binding. -/
theorem C3_to_form_none_safe {V : Type} [DecidableEq V] :
    (∀ c : ConverterVariant, c ≠ .receiverKeysConv →
      convert_to_form_at_none c = .ok ()) ∧
    (∀ e : EnumModel V, EnumConverter.convert_to_form e none = .ok none) := by
  constructor
  · intro c hc
    cases c with
    | receiverKeysConv => exact absurd rfl hc
    | nullConv => rfl
    | optionalConv => rfl
    | intConv => rfl
    | floatConv => rfl
    | enumConv => rfl
    | q65ModeConv => rfl
  · intro e
    rfl

/-- Witness for C3 (amended) at concrete variants: `IntConverter` renders an
absent value without raising, and `EnumConverter` bound to
`AprsBeaconSymbols` maps `None` to `None`. -/
theorem C3_to_form_none_safe_witness :
    convert_to_form_at_none .intConv = .ok () ∧
    EnumConverter.convert_to_form aprsBeaconSymbols none = .ok none := by
  constructor
  · exact (C3_to_form_none_safe (V := String)).1 .intConv (by decide)
  · exact (C3_to_form_none_safe (V := String)).2 aprsBeaconSymbols

theorem head?_dropWhile_not {α : Type} (p : α → Bool) (l : List α) (c : α)
    (h : (l.dropWhile p).head? = some c) : p c = false := by
  induction l with
  | nil => simp [List.dropWhile] at h
  | cons a t ih =>
    rw [List.dropWhile_cons] at h
    by_cases hp : p a = true
    · rw [if_pos hp] at h
      exact ih h
    · rw [if_neg hp] at h
      simp at h
      rw [← h]
      simpa using hp

theorem reverse_decomp {α : Type} (p : α → Bool) (x : List α) :
    x = (x.reverse.dropWhile p).reverse ++ (x.reverse.takeWhile p).reverse := by
  conv_lhs => rw [← List.reverse_reverse x]
  rw [← List.reverse_append, List.takeWhile_append_dropWhile]

/-- The two-sided strip decomposes its input as a stripped prefix, the
result, and a stripped suffix, the result carrying no strippable character
at either end. -/
theorem stripChars_decomp (cs : List Char) (l : List Char) :
    ∃ pre suf,
      (∀ c ∈ pre, cs.contains c = true) ∧
      (∀ c ∈ suf, cs.contains c = true) ∧
      l = pre ++ stripChars cs l ++ suf ∧
      (∀ c, (stripChars cs l).head? = some c → cs.contains c = false) ∧
      (∀ c, (stripChars cs l).getLast? = some c → cs.contains c = false) := by
  have hstrip : stripChars cs l =
      ((l.dropWhile (fun c => cs.contains c)).reverse.dropWhile
        (fun c => cs.contains c)).reverse := rfl
  refine ⟨l.takeWhile (fun c => cs.contains c),
    ((l.dropWhile (fun c => cs.contains c)).reverse.takeWhile
      (fun c => cs.contains c)).reverse, ?_, ?_, ?_, ?_, ?_⟩
  · intro c hc
    exact List.mem_takeWhile_imp hc
  · intro c hc
    rw [List.mem_reverse] at hc
    exact List.mem_takeWhile_imp hc
  · rw [hstrip, List.append_assoc,
      ← reverse_decomp (fun c => cs.contains c)
        (l.dropWhile (fun c => cs.contains c)),
      List.takeWhile_append_dropWhile]
  · intro c hc
    have hm : (l.dropWhile (fun c => cs.contains c)).head? = some c := by
      rw [reverse_decomp (fun c => cs.contains c)
        (l.dropWhile (fun c => cs.contains c)), List.head?_append, ← hstrip, hc]
      rfl
    exact head?_dropWhile_not _ l c hm
  · intro c hc
    rw [hstrip, List.getLast?_reverse] at hc
    exact head?_dropWhile_not _ _ c hc

/-- Counterexample to C6 as stated: on the input `" a"` the code strips the
LEADING space as well (Python `str.strip` strips both ends), yielding
`["a"]`, while the claim's trailing-only reading yields `[" a"]`. -/
theorem C6_strip_counterexample :
    ReceiverKeysConverter.convert_from_form " a" = ["a"] ∧
    ReceiverKeysConverter.claimed_convert_from_form " a" = [" a"] ∧
    (["a"] : List String) ≠ [" a"] :=
  ⟨by decide, by decide, by decide⟩

/-- Claim C6 (amended): `convert_from_form` splits the submitted string on
newline and strips carriage returns and spaces from BOTH ends of each line
(leaving the interior unchanged): each output line is the corresponding
input line minus a stripped prefix and suffix of `\r`/space characters, and
itself neither starts nor ends with such a character; `convert_to_form`
joins a list of values with newline. -/
theorem C6_receiver_keys_roundtrip :
    (∀ s : String, List.Forall₂
      (fun (line : List Char) (out : String) => ∃ pre suf,
        (∀ c ∈ pre, (['\r', ' '].contains c) = true) ∧
        (∀ c ∈ suf, (['\r', ' '].contains c) = true) ∧
        line = pre ++ out.toList ++ suf ∧
        (∀ c, out.toList.head? = some c → (['\r', ' '].contains c) = false) ∧
        (∀ c, out.toList.getLast? = some c → (['\r', ' '].contains c) = false))
      (pySplitChars '\n' s.toList) (ReceiverKeysConverter.convert_from_form s)) ∧
    (∀ xs, ReceiverKeysConverter.convert_to_form (some xs) =
      .ok (String.intercalate "\n" xs)) := by
  constructor
  · intro s
    unfold ReceiverKeysConverter.convert_from_form
    rw [List.forall₂_map_right_iff, List.forall₂_same]
    intro x _
    obtain ⟨pre, suf, h1, h2, h3, h4, h5⟩ := stripChars_decomp ['\r', ' '] x
    exact ⟨pre, suf, h1, h2, h3, h4, h5⟩
  · intro xs
    rfl

/-- Witness for C6 (amended): joining two keys inserts the newline. -/
theorem C6_receiver_keys_roundtrip_witness :
    ReceiverKeysConverter.convert_to_form (some ["k1", "k2"]) = .ok "k1\nk2" := by
  rw [C6_receiver_keys_roundtrip.2 ["k1", "k2"]]
  exact congrArg Except.ok (by decide)
